import Mathlib

/-!
# cloudflare-dyndns-updater: a verification development of `main.go`

The program polls two IP-echo endpoints with a bounded retry loop
(`getCurrentIP`), joins the two answers into one marker string and rewrites a
marker file when that string changed (`runUpdateCycle`), and repeats on a
ticker until a shutdown signal closes the `done` channel (`main`).

Modelling conventions.

* A Go `string` holding UTF-8 text is a Lean `String` (a sequence of code
  points); `strings.TrimSpace` removes leading and trailing code points that
  satisfy Go's `unicode.IsSpace`.
* `time.Duration` is an `Int` count of nanoseconds, reduced into the signed
  64-bit range after a multiplication (`wrapInt64`).
* Go's `int` is the 64-bit `int` of the usual build targets.
* Side effects are explicit state passing over a `World`: the outcomes of the
  HTTP attempts, the files, and the trace of observable events (network calls,
  sleeps, log lines, file reads and writes) in program order.
-/

namespace DynDns

/-! ## Go runtime pieces used by the program -/

/-- Go `error` values: an error with a message, possibly wrapping a cause
(`fmt.Errorf` with the `%w` verb). -/
inductive GoError where
  | leaf (msg : String)
  | wrap (msg : String) (cause : GoError)
  deriving DecidableEq, Repr

/-- The `Error()` method: the message of an error. -/
def GoError.Error : GoError → String
  | .leaf msg => msg
  | .wrap msg _ => msg

/-- The `Unwrap()` method as used by `errors.Unwrap`: the wrapped cause, if any. -/
def GoError.Unwrap : GoError → Option GoError
  | .leaf _ => none
  | .wrap _ cause => some cause

/-- The value of `fmt.Errorf(pre + "%w", err)`: an error whose message is `pre`
followed by the message of `err` and which wraps `err`; with a nil operand the
verb prints `%!w(<nil>)` and nothing is wrapped. -/
def Errorf_w (pre : String) : Option GoError → GoError
  | some e => .wrap (pre ++ e.Error) e
  | none => .leaf (pre ++ "%!w(<nil>)")

/-- The predicate `unicode.IsSpace`: the Latin-1 spaces
`'\t', '\n', '\v', '\f', '\r', ' ', U+0085, U+00A0` and the other code points
with the Unicode White_Space property. -/
def isSpace (c : Char) : Bool :=
  let n := c.toNat
  (9 ≤ n && n ≤ 13) || n == 32 || n == 0x85 || n == 0xA0 || n == 0x1680 ||
  (0x2000 ≤ n && n ≤ 0x200A) || n == 0x2028 || n == 0x2029 || n == 0x202F ||
  n == 0x205F || n == 0x3000

/-- The function `strings.TrimSpace` on a list of code points. -/
def trimSpaceList (cs : List Char) : List Char :=
  ((cs.dropWhile isSpace).reverse.dropWhile isSpace).reverse

/-- The function `strings.TrimSpace`: the string without its leading and
trailing white space. -/
def TrimSpace (s : String) : String := ⟨trimSpaceList s.data⟩

/-- A `time.Duration`: nanoseconds. -/
abbrev Duration := Int

/-- Reduction of an integer into the signed 64-bit range (two's complement
wrap-around of Go's `int64` arithmetic). -/
def wrapInt64 (x : Int) : Int := (x + 2 ^ 63) % 2 ^ 64 - 2 ^ 63

/-- Multiplication of two `int64` values. -/
def mulInt64 (a b : Int) : Int := wrapInt64 (a * b)

/-- The constant `time.Second`. -/
def Second : Duration := 1000000000

/-- The constant `time.Minute`. -/
def Minute : Duration := 60 * Second

/-- What one attempt of the retry loop meets: `http.NewRequestWithContext`
fails, `client.Do` fails, `io.ReadAll` fails, or a body is read in full. -/
inductive Attempt where
  | badRequest (e : GoError)
  | doErr (e : GoError)
  | readErr (e : GoError)
  | respBody (b : String)
  deriving DecidableEq, Repr

/-- Observable events, recorded in program order. -/
inductive Event where
  | httpDo (url : String)
  | sleep (d : Duration)
  | log (msg : String)
  | readFile (path : String)
  | writeFile (path : String) (data : String)
  deriving DecidableEq, Repr

/-- The environment of the program.

* `net url n` is what the `n`-th attempt started in this world (counted from 0
  over all lookups) meets when it targets `url`;
* `attempts` counts the attempts started so far;
* `files path` is the content `os.ReadFile` returns, `none` when the file is
  missing or unreadable;
* `writeErr path` is `none` when `os.WriteFile` on `path` succeeds and
  `some r` when it fails leaving the file in state `r`;
* `trace` is the list of events so far. -/
structure World where
  net : String → Nat → Attempt
  attempts : Nat
  files : String → Option String
  writeErr : String → Option (Option String)
  trace : List Event

/-- Append one event to the trace. -/
def World.emit (w : World) (e : Event) : World :=
  { w with trace := w.trace ++ [e] }

/-- Start one attempt: the attempt counter advances. -/
def World.tick (w : World) : World :=
  { w with attempts := w.attempts + 1 }

/-- Number of `client.Do` calls in a trace. -/
def httpCalls (tr : List Event) : Nat :=
  (tr.filter fun e => match e with
    | .httpDo _ => true
    | _ => false).length

/-- The durations of the `time.Sleep` calls of a trace, in order. -/
def sleeps (tr : List Event) : List Duration :=
  tr.filterMap fun e => match e with
    | .sleep d => some d
    | _ => none

/-- The file reads and writes of a trace, in order. -/
def fileOps (tr : List Event) : List Event :=
  tr.filter fun e => match e with
    | .readFile _ => true
    | .writeFile _ _ => true
    | _ => false

/-! ## `getCurrentIP` -/

/-- The slice `backoffs` of `getCurrentIP`. -/
def backoffs : List Duration := [2 * Second, 4 * Second, 8 * Second]

/-- The body of `for i, delay := range backoffs` in `getCurrentIP`, started at
index `i` with the remaining delays, followed by the final `return`. -/
def getCurrentIPLoop (url : String) :
    Nat → List Duration → Option GoError → World → (String × Option GoError) × World
  | _, [], lastErr, w =>
    (("", some (Errorf_w "failed to get current IP after retries: " lastErr)), w)
  | i, delay :: rest, _, w =>
    match w.net url w.attempts with
    | .badRequest err => (("", some err), w.tick)
    | .doErr err =>
      getCurrentIPLoop url (i + 1) rest (some err)
        (((w.tick.emit (.httpDo url)).emit
          (.log ("Attempt " ++ toString (i + 1) ++ ": error contacting IP service: " ++ err.Error))).emit
          (.sleep delay))
    | .readErr err =>
      getCurrentIPLoop url (i + 1) rest (some err)
        (((w.tick.emit (.httpDo url)).emit
          (.log ("Attempt " ++ toString (i + 1) ++ ": error reading IP response: " ++ err.Error))).emit
          (.sleep delay))
    | .respBody b =>
      let ip := TrimSpace b
      if ip ≠ "" then
        ((ip, none), w.tick.emit (.httpDo url))
      else
        getCurrentIPLoop url (i + 1) rest (some (.leaf "empty IP response"))
          (((w.tick.emit (.httpDo url)).emit
            (.log ("Attempt " ++ toString (i + 1) ++ ": received empty IP"))).emit
            (.sleep delay))

/-- The function `getCurrentIP(ctx, url)`: the address and the error it
returns, and the world after the call. -/
def getCurrentIP (url : String) (w : World) : (String × Option GoError) × World :=
  getCurrentIPLoop url 0 backoffs none w

/-- Whether an attempt fails in the sense of the retry loop: the network call
errors, the body cannot be read, or the trimmed body is empty. -/
def Attempt.fails : Attempt → Bool
  | .badRequest _ => false
  | .doErr _ => true
  | .readErr _ => true
  | .respBody b => TrimSpace b == ""

/-- The cause a failed attempt stores in `lastErr`. -/
def Attempt.cause : Attempt → Option GoError
  | .badRequest _ => none
  | .doErr e => some e
  | .readErr e => some e
  | .respBody b => if TrimSpace b = "" then some (.leaf "empty IP response") else none

/-! ## The marker file and `runUpdateCycle` -/

/-- The function `readLastIP(ipFile)`: the trimmed content of the file, the
empty string when `os.ReadFile` fails. -/
def readLastIP (ipFile : String) (w : World) : String × World :=
  let w := w.emit (.readFile ipFile)
  match w.files ipFile with
  | none => ("", w)
  | some data => (TrimSpace data, w)

/-- The function `writeLastIP(ipFile, ip)`: one `os.WriteFile` call whose error
is discarded. After a successful write the file holds `ip` and is readable;
after a failed one it is in the state given by `writeErr`. -/
def writeLastIP (ipFile ip : String) (w : World) : World :=
  let w := w.emit (.writeFile ipFile ip)
  match w.writeErr ipFile with
  | none => { w with files := fun p => if p = ipFile then some ip else w.files p }
  | some r => { w with files := fun p => if p = ipFile then r else w.files p }

/-- The value `combinedIP := fmt.Sprintf("%s|%s", ipV4, ipV6)`. -/
def combinedIP (ipV4 ipV6 : String) : String := ipV4 ++ "|" ++ ipV6

/-- The statement `if err != nil { log.Printf(pre + "%v", err) }`. -/
def logIfErr (pre : String) (err : Option GoError) (w : World) : World :=
  match err with
  | some e => w.emit (.log (pre ++ e.Error))
  | none => w

/-- The function `runUpdateCycle(ctx, ipFile, ipURLv4, ipURLv6)`. -/
def runUpdateCycle (ipFile ipURLv4 ipURLv6 : String) (w : World) : World :=
  let r4 := getCurrentIP ipURLv4 w
  let ipV4 := r4.1.1
  let w := logIfErr "Failed to get IPv4: " r4.1.2 r4.2
  let r6 := getCurrentIP ipURLv6 w
  let ipV6 := r6.1.1
  let w := logIfErr "Failed to get IPv6: " r6.1.2 r6.2
  if ipV4 = "" ∧ ipV6 = "" then
    w.emit (.log "No usable IPs found, skipping update cycle")
  else
    let rd := readLastIP ipFile w
    let lastIP := rd.1
    let w := rd.2
    if combinedIP ipV4 ipV6 ≠ lastIP then
      writeLastIP ipFile (combinedIP ipV4 ipV6)
        ((w.emit (.log ("IP change detected: " ++ lastIP ++ " -> " ++ combinedIP ipV4 ipV6))).emit
          (.log "Would update DNS here if Cloudflare code were active"))
    else
      w.emit (.log ("No IP change detected: " ++ combinedIP ipV4 ipV6))

/-- The marker content a cycle compares against: the trimmed file content, the
empty string when the file is missing or unreadable. -/
def priorMarker (content : Option String) : String :=
  match content with
  | none => ""
  | some data => TrimSpace data

/-- A string with no leading and no trailing white space (the empty string
included). -/
def NoOuterSpace (s : String) : Prop :=
  s.data.head?.map isSpace ≠ some true ∧ s.data.getLast?.map isSpace ≠ some true

instance (s : String) : Decidable (NoOuterSpace s) := by
  unfold NoOuterSpace
  infer_instance

/-! ## `getCheckInterval` -/

/-- The constant `defaultCheckIntervalMin`. -/
def defaultCheckIntervalMin : Int := 1

/-- The function `os.Getenv`: the value of a variable, empty when it is unset. -/
def Getenv (env : String → Option String) (key : String) : String :=
  (env key).getD ""

/-- The function `getEnv(key, fallback)`. -/
def getEnv (env : String → Option String) (key fallback : String) : String :=
  let val := Getenv env key
  if val = "" then fallback else val

/-- The value of a non-empty run of decimal digits, `none` when a character is
not a digit. -/
def digitsValue : List Char → Nat → Option Nat
  | [], acc => some acc
  | c :: cs, acc =>
    if '0' ≤ c ∧ c ≤ '9' then digitsValue cs (acc * 10 + (c.toNat - '0'.toNat)) else none

/-- The function `strconv.Atoi` for a 64-bit `int`: an optional sign followed
by at least one decimal digit, the value within the `int64` range; `none`
stands for a non-nil error. -/
def Atoi (s : String) : Option Int :=
  let neg := s.data.head? = some '-'
  let ds := if s.data.head? = some '-' ∨ s.data.head? = some '+' then s.data.tail else s.data
  if ds = [] then none
  else
    match digitsValue ds 0 with
    | none => none
    | some n =>
      let v : Int := if neg then -(n : Int) else (n : Int)
      if -(2 ^ 63) ≤ v ∧ v ≤ 2 ^ 63 - 1 then some v else none

/-- The function `getCheckInterval()`: the interval and the log lines written. -/
def getCheckInterval (env : String → Option String) : Duration × List String :=
  let val := getEnv env "CHECK_INTERVAL_MINUTES" (toString defaultCheckIntervalMin)
  let invalid : Duration × List String :=
    (mulInt64 defaultCheckIntervalMin Minute,
      ["Invalid CHECK_INTERVAL_MINUTES: " ++ val ++ ", using default of " ++
        toString defaultCheckIntervalMin])
  match Atoi val with
  | none => invalid
  | some mins => if mins ≤ 0 then invalid else (mulInt64 mins Minute, [])

/-- The function `time.NewTicker(d)`: it panics when `d` is not positive. -/
def NewTicker (d : Duration) : Except String Duration :=
  if d ≤ 0 then .error "non-positive interval for NewTicker" else .ok d

/-! ## The scheduler loop of `main` -/

/-- Where the worker goroutine is: inside `runUpdateCycle`, at the `select`,
or returned. -/
inductive Pc where
  | inCycle
  | atSelect
  | exited
  deriving DecidableEq, Repr

/-- The state of the scheduler: the worker's location, whether `ticker.C`
(a channel of capacity one) holds a tick, whether `done` is closed. -/
structure Sched where
  pc : Pc
  tickPending : Bool
  doneClosed : Bool
  deriving DecidableEq, Repr

/-- The steps of an execution: the ticker delivers a tick, the main goroutine
receives the signal and closes `done`, the running cycle returns, and the
`select` proceeds with `case <-ticker.C` or with `case <-done`. -/
inductive Action where
  | tickFires
  | closeDone
  | cycleReturns
  | takeTick
  | takeDone
  deriving DecidableEq, Repr

/-- The worker starts in its first cycle, before any tick and any signal. -/
def Sched.init : Sched := { pc := .inCycle, tickPending := false, doneClosed := false }

/-- One step of the scheduler, `none` when the step is not enabled. A `select`
case is enabled when its channel can be received from; when both can, either
case may be chosen. -/
def Sched.step (s : Sched) : Action → Option Sched
  | .tickFires => some { s with tickPending := true }
  | .closeDone => if s.doneClosed then none else some { s with doneClosed := true }
  | .cycleReturns => if s.pc = .inCycle then some { s with pc := .atSelect } else none
  | .takeTick =>
    if s.pc = .atSelect ∧ s.tickPending = true then
      some { s with pc := .inCycle, tickPending := false }
    else none
  | .takeDone =>
    if s.pc = .atSelect ∧ s.doneClosed = true then some { s with pc := .exited } else none

/-- Run a list of steps, `none` when one of them is not enabled. -/
def Sched.run (s : Sched) : List Action → Option Sched
  | [] => some s
  | a :: as => (s.step a).bind fun t => t.run as

/-- Whether a new call of `runUpdateCycle` starts after `done` was closed: a
`takeTick` step somewhere behind a `closeDone` step. -/
def startsCycleAfterClose : List Action → Bool
  | [] => false
  | .closeDone :: as => as.contains .takeTick
  | _ :: as => startsCycleAfterClose as

/-! ## Vocabulary of the statements -/

/-- The log line of a failed attempt with loop index `i`. -/
def failLog (i : Nat) : Attempt → String
  | .badRequest _ => ""
  | .doErr err => "Attempt " ++ toString (i + 1) ++ ": error contacting IP service: " ++ err.Error
  | .readErr err => "Attempt " ++ toString (i + 1) ++ ": error reading IP response: " ++ err.Error
  | .respBody _ => "Attempt " ++ toString (i + 1) ++ ": received empty IP"

/-- The world after a failed attempt with loop index `i` and delay `d`: the
call, the log line, the sleep. -/
def failWorld (url : String) (i : Nat) (d : Duration) (w : World) : World :=
  ((w.tick.emit (.httpDo url)).emit (.log (failLog i (w.net url w.attempts)))).emit (.sleep d)

/-- The network calls and sleeps of a trace, in order. -/
def callsAndSleeps (tr : List Event) : List Event :=
  tr.filter fun e => match e with
    | .httpDo _ => true
    | .sleep _ => true
    | _ => false

/-! ## Concrete worlds -/

/-- A world with no file and an empty trace whose network behaves as `net`. -/
def World.start (net : String → Nat → Attempt) : World :=
  { net := net, attempts := 0, files := fun _ => none, writeErr := fun _ => none, trace := [] }

/-- A world in which every attempt fails in `client.Do`. -/
def worldDown : World :=
  World.start fun _ _ => .doErr (.leaf "dial tcp: connection refused")

/-- A world in which the first two attempts fail and the third reads an
address followed by a newline. -/
def worldFlaky : World :=
  World.start fun _ n =>
    if n = 0 then .doErr (.leaf "timeout")
    else if n = 1 then .respBody " \n"
    else .respBody "203.0.113.7\n"

/-- A world in which the attempts fail in three different ways, the last one
with an empty body. -/
def worldMixed : World :=
  World.start fun _ n =>
    if n = 0 then .doErr (.leaf "timeout")
    else if n = 1 then .readErr (.leaf "unexpected EOF")
    else .respBody "\n"

/-- The network of a host with IPv4 connectivity only: the v4 endpoint answers
with `ip` and a newline, every other endpoint is unreachable. -/
def netV4Only (ip : String) : String → Nat → Attempt := fun url _ =>
  if url = "https://api.ipify.org" then .respBody (ip ++ "\n")
  else .doErr (.leaf "network is unreachable")

/-- A fresh world with the given network whose marker file `/tmp/last_ip`
holds `marker`. -/
def worldWithMarker (net : String → Nat → Attempt) (marker : Option String) : World :=
  { net := net, attempts := 0,
    files := fun p => if p = "/tmp/last_ip" then marker else none,
    writeErr := fun _ => none, trace := [] }

/-- The marker holds `1.2.3.4|` and the v4 endpoint now answers `5.6.7.8`. -/
def worldChanged : World := worldWithMarker (netV4Only "5.6.7.8") (some "1.2.3.4|")

/-- The marker holds `1.2.3.4|` and the v4 endpoint still answers `1.2.3.4`. -/
def worldSame : World := worldWithMarker (netV4Only "1.2.3.4") (some "1.2.3.4|")

/-- The marker holds `1.2.3.4|` and no endpoint can be reached. -/
def worldOffline : World :=
  worldWithMarker (fun _ _ => .doErr (.leaf "network is unreachable")) (some "1.2.3.4|")

/-- An environment in which only `CHECK_INTERVAL_MINUTES` is set. -/
def envInterval (v : String) : String → Option String := fun key =>
  if key = "CHECK_INTERVAL_MINUTES" then some v else none

/-! ## Lemmas on the retry loop -/

section RetryLoop

variable (url : String) (w : World)

@[simp] theorem emit_trace (e : Event) : (w.emit e).trace = w.trace ++ [e] := rfl
@[simp] theorem emit_net (e : Event) : (w.emit e).net = w.net := rfl
@[simp] theorem emit_attempts (e : Event) : (w.emit e).attempts = w.attempts := rfl
@[simp] theorem emit_files (e : Event) : (w.emit e).files = w.files := rfl
@[simp] theorem emit_writeErr (e : Event) : (w.emit e).writeErr = w.writeErr := rfl
@[simp] theorem tick_trace : w.tick.trace = w.trace := rfl
@[simp] theorem tick_net : w.tick.net = w.net := rfl
@[simp] theorem tick_attempts : w.tick.attempts = w.attempts + 1 := rfl
@[simp] theorem tick_files : w.tick.files = w.files := rfl
@[simp] theorem tick_writeErr : w.tick.writeErr = w.writeErr := rfl

@[simp] theorem failWorld_trace (i : Nat) (d : Duration) :
    (failWorld url i d w).trace =
      w.trace ++ [.httpDo url, .log (failLog i (w.net url w.attempts)), .sleep d] := by
  simp [failWorld]

@[simp] theorem failWorld_net (i : Nat) (d : Duration) : (failWorld url i d w).net = w.net := rfl

@[simp] theorem failWorld_attempts (i : Nat) (d : Duration) :
    (failWorld url i d w).attempts = w.attempts + 1 := rfl

@[simp] theorem failWorld_files (i : Nat) (d : Duration) :
    (failWorld url i d w).files = w.files := rfl

@[simp] theorem failWorld_writeErr (i : Nat) (d : Duration) :
    (failWorld url i d w).writeErr = w.writeErr := rfl

/-- A failed attempt records its cause, logs, sleeps and goes on with the next
index. -/
theorem loop_fail_step (i : Nat) (d : Duration) (rest : List Duration) (le : Option GoError)
    (h : (w.net url w.attempts).fails = true) :
    getCurrentIPLoop url i (d :: rest) le w =
      getCurrentIPLoop url (i + 1) rest (w.net url w.attempts).cause (failWorld url i d w) := by
  rw [getCurrentIPLoop]
  unfold failWorld
  cases hn : w.net url w.attempts with
  | badRequest e => simp [hn, Attempt.fails] at h
  | doErr e => simp [failLog, Attempt.cause]
  | readErr e => simp [failLog, Attempt.cause]
  | respBody b =>
    have hb : TrimSpace b = "" := by simpa [hn, Attempt.fails] using h
    simp [failLog, Attempt.cause, hb]

/-- An attempt that reads a body with non-empty trimmed content returns it at
once. -/
theorem loop_success_step (i : Nat) (d : Duration) (rest : List Duration) (le : Option GoError)
    (b : String) (hb : w.net url w.attempts = .respBody b) (hne : TrimSpace b ≠ "") :
    getCurrentIPLoop url i (d :: rest) le w =
      ((TrimSpace b, none), w.tick.emit (.httpDo url)) := by
  rw [getCurrentIPLoop]
  simp [hb, hne]

/-- When the three attempts fail, the call returns the wrapped cause of the
third one after three calls, each followed by its sleep. -/
theorem getCurrentIP_all_fail
    (h : ∀ i, i < 3 → (w.net url (w.attempts + i)).fails = true) :
    getCurrentIP url w =
      (("", some (Errorf_w "failed to get current IP after retries: "
          (w.net url (w.attempts + 2)).cause)),
        failWorld url 2 (8 * Second) (failWorld url 1 (4 * Second)
          (failWorld url 0 (2 * Second) w))) := by
  have h0 := h 0 (by decide)
  have h1 := h 1 (by decide)
  have h2 := h 2 (by decide)
  simp only [Nat.add_zero] at h0
  unfold getCurrentIP backoffs
  rw [loop_fail_step url w 0 _ _ _ h0]
  rw [loop_fail_step url _ 1 _ _ _ (by simpa using h1)]
  rw [loop_fail_step url _ 2 _ _ _ (by simpa using h2)]
  simp [getCurrentIPLoop, Nat.add_assoc]

/-- A failing attempt has a cause. -/
theorem cause_of_fails (a : Attempt) (h : a.fails = true) : ∃ e, a.cause = some e := by
  cases a with
  | badRequest e => simp [Attempt.fails] at h
  | doErr e => exact ⟨e, rfl⟩
  | readErr e => exact ⟨e, rfl⟩
  | respBody b =>
    have hb : TrimSpace b = "" := by simpa [Attempt.fails] using h
    exact ⟨.leaf "empty IP response", by simp [Attempt.cause, hb]⟩

@[simp] theorem httpCalls_append (a b : List Event) :
    httpCalls (a ++ b) = httpCalls a + httpCalls b := by
  simp [httpCalls]

@[simp] theorem sleeps_append (a b : List Event) : sleeps (a ++ b) = sleeps a ++ sleeps b := by
  simp [sleeps]

@[simp] theorem fileOps_append (a b : List Event) : fileOps (a ++ b) = fileOps a ++ fileOps b := by
  simp [fileOps]

@[simp] theorem callsAndSleeps_append (a b : List Event) :
    callsAndSleeps (a ++ b) = callsAndSleeps a ++ callsAndSleeps b := by
  simp [callsAndSleeps]

/-- The retry loop touches no file, keeps the network and the write outcomes,
and issues no file operation. -/
theorem loop_frame (ds : List Duration) :
    ∀ (i : Nat) (le : Option GoError) (w : World),
      (getCurrentIPLoop url i ds le w).2.files = w.files ∧
      (getCurrentIPLoop url i ds le w).2.writeErr = w.writeErr ∧
      (getCurrentIPLoop url i ds le w).2.net = w.net ∧
      fileOps (getCurrentIPLoop url i ds le w).2.trace = fileOps w.trace := by
  induction ds with
  | nil => intro i le w; simp [getCurrentIPLoop]
  | cons d rest ih =>
    intro i le w
    rw [getCurrentIPLoop]
    split
    · simp
    · have := ih (i + 1) (some ‹GoError›) (((w.tick.emit (.httpDo url)).emit
          (.log ("Attempt " ++ toString (i + 1) ++ ": error contacting IP service: " ++
            GoError.Error ‹GoError›))).emit (.sleep d))
      simpa [fileOps] using this
    · have := ih (i + 1) (some ‹GoError›) (((w.tick.emit (.httpDo url)).emit
          (.log ("Attempt " ++ toString (i + 1) ++ ": error reading IP response: " ++
            GoError.Error ‹GoError›))).emit (.sleep d))
      simpa [fileOps] using this
    · simp only []
      split
      · simp [fileOps]
      · have := ih (i + 1) (some (.leaf "empty IP response")) (((w.tick.emit (.httpDo url)).emit
          (.log ("Attempt " ++ toString (i + 1) ++ ": received empty IP"))).emit (.sleep d))
        simpa [fileOps] using this

/-- The retry loop never moves the attempt counter back, and starts at least
one attempt when a delay is left. -/
theorem loop_attempts (ds : List Duration) :
    ∀ (i : Nat) (le : Option GoError) (w : World),
      w.attempts + min 1 ds.length ≤ (getCurrentIPLoop url i ds le w).2.attempts := by
  induction ds with
  | nil => intro i le w; simp [getCurrentIPLoop]
  | cons d rest ih =>
    intro i le w
    rw [getCurrentIPLoop]
    have hmin : min 1 (d :: rest).length = 1 := by simp
    rw [hmin]
    split
    · simp
    · have := ih (i + 1) (some ‹GoError›) (((w.tick.emit (.httpDo url)).emit
          (.log ("Attempt " ++ toString (i + 1) ++ ": error contacting IP service: " ++
            GoError.Error ‹GoError›))).emit (.sleep d))
      simp only [emit_attempts, tick_attempts] at this
      omega
    · have := ih (i + 1) (some ‹GoError›) (((w.tick.emit (.httpDo url)).emit
          (.log ("Attempt " ++ toString (i + 1) ++ ": error reading IP response: " ++
            GoError.Error ‹GoError›))).emit (.sleep d))
      simp only [emit_attempts, tick_attempts] at this
      omega
    · simp only []
      split
      · simp
      · have := ih (i + 1) (some (.leaf "empty IP response")) (((w.tick.emit (.httpDo url)).emit
          (.log ("Attempt " ++ toString (i + 1) ++ ": received empty IP"))).emit (.sleep d))
        simp only [emit_attempts, tick_attempts] at this
        omega

/-- A call of the retry loop that returns no error ends with the network call
of the successful attempt, and its result is a non-empty trimmed body. -/
theorem loop_success_last (ds : List Duration) :
    ∀ (i : Nat) (le : Option GoError) (w : World),
      (getCurrentIPLoop url i ds le w).1.2 = none →
        (getCurrentIPLoop url i ds le w).2.trace.getLast? = some (.httpDo url) ∧
        (getCurrentIPLoop url i ds le w).1.1 ≠ "" ∧
        ∃ b, (getCurrentIPLoop url i ds le w).1.1 = TrimSpace b := by
  induction ds with
  | nil => intro i le w; simp [getCurrentIPLoop]
  | cons d rest ih =>
    intro i le w
    rw [getCurrentIPLoop]
    split
    · simp
    · exact ih _ _ _
    · exact ih _ _ _
    · simp only []
      split
      · rename_i b _ hne
        intro _
        exact ⟨by simp, hne, b, rfl⟩
      · exact ih _ _ _

/-- A call of the retry loop that returns an error returns the empty string. -/
theorem loop_error_empty (ds : List Duration) :
    ∀ (i : Nat) (le : Option GoError) (w : World),
      (getCurrentIPLoop url i ds le w).1.2 ≠ none →
        (getCurrentIPLoop url i ds le w).1.1 = "" := by
  induction ds with
  | nil => intro i le w; simp [getCurrentIPLoop]
  | cons d rest ih =>
    intro i le w
    rw [getCurrentIPLoop]
    split
    · simp
    · exact ih _ _ _
    · exact ih _ _ _
    · simp only []
      split
      · simp
      · exact ih _ _ _

end RetryLoop

/-! ## Lemmas on strings -/

/-- A list whose head is not dropped is left as it is by `dropWhile`. -/
theorem dropWhile_of_head (p : Char → Bool) (l : List Char)
    (h : ∀ c, l.head? = some c → p c = false) : l.dropWhile p = l := by
  cases l with
  | nil => rfl
  | cons a t => simp [List.dropWhile, h a rfl]

/-- The head of `dropWhile p l` does not satisfy `p`. -/
theorem head_dropWhile (p : Char → Bool) (l : List Char) (c : Char)
    (h : (l.dropWhile p).head? = some c) : p c = false := by
  have := List.head?_dropWhile_not p l
  rw [h] at this
  exact this

/-- Trimming leaves a list with no outer space as it is. -/
theorem trimSpaceList_of_noOuterSpace (l : List Char)
    (hh : ∀ c, l.head? = some c → isSpace c = false)
    (hl : ∀ c, l.getLast? = some c → isSpace c = false) : trimSpaceList l = l := by
  unfold trimSpaceList
  rw [dropWhile_of_head isSpace l hh]
  rw [dropWhile_of_head isSpace l.reverse (by simpa using hl)]
  simp

/-- The result of trimming has no outer space. -/
theorem trimSpaceList_noOuterSpace (l : List Char) :
    (∀ c, (trimSpaceList l).head? = some c → isSpace c = false) ∧
    (∀ c, (trimSpaceList l).getLast? = some c → isSpace c = false) := by
  unfold trimSpaceList
  constructor
  · intro c hc
    rw [List.head?_reverse] at hc
    have hsplit := List.takeWhile_append_dropWhile isSpace (l.dropWhile isSpace).reverse
    have hlast : (l.dropWhile isSpace).reverse.getLast? = some c := by
      rw [← hsplit, List.getLast?_append, hc]
      rfl
    rw [List.getLast?_reverse] at hlast
    exact head_dropWhile isSpace l c hlast
  · intro c hc
    rw [List.getLast?_reverse] at hc
    exact head_dropWhile isSpace _ c hc

/-- A string has no outer space when its first and its last character, if
any, are not white space. -/
theorem noOuterSpace_iff (s : String) :
    NoOuterSpace s ↔
      (∀ c, s.data.head? = some c → isSpace c = false) ∧
      (∀ c, s.data.getLast? = some c → isSpace c = false) := by
  unfold NoOuterSpace
  cases s.data.head? <;> cases s.data.getLast? <;> simp

/-- The string `TrimSpace s` has no outer space. -/
theorem TrimSpace_noOuterSpace (s : String) : NoOuterSpace (TrimSpace s) :=
  (noOuterSpace_iff _).2 (trimSpaceList_noOuterSpace s.data)

/-- The empty string has no outer space. -/
theorem noOuterSpace_empty : NoOuterSpace "" := by
  decide

/-- Every result of `getCurrentIP` has no outer space: it is the empty string
or a trimmed body. -/
theorem getCurrentIP_noOuterSpace (url : String) (w : World) :
    NoOuterSpace (getCurrentIP url w).1.1 := by
  cases he : (getCurrentIP url w).1.2 with
  | none =>
    obtain ⟨_, _, b, hb⟩ := loop_success_last url backoffs 0 none w he
    unfold getCurrentIP
    rw [hb]
    exact TrimSpace_noOuterSpace b
  | some e =>
    have := loop_error_empty url backoffs 0 none w (by
      have : (getCurrentIP url w).1.2 ≠ none := by simp [he]
      exact this)
    unfold getCurrentIP
    rw [this]
    exact noOuterSpace_empty

/-- Two lists split at a separator that occurs in neither left part are equal
part by part. -/
theorem append_sep_inj (a : Char) :
    ∀ (l₁ l₂ r₁ r₂ : List Char), a ∉ l₁ → a ∉ l₂ →
      l₁ ++ a :: r₁ = l₂ ++ a :: r₂ → l₁ = l₂ ∧ r₁ = r₂ := by
  intro l₁
  induction l₁ with
  | nil =>
    intro l₂ r₁ r₂ _ h₂ h
    cases l₂ with
    | nil => simpa using h
    | cons b t =>
      simp only [List.nil_append, List.cons_append, List.cons.injEq] at h
      exact absurd (h.1 ▸ List.mem_cons_self _ _) h₂
  | cons x t ih =>
    intro l₂ r₁ r₂ h₁ h₂ h
    cases l₂ with
    | nil =>
      simp only [List.nil_append, List.cons_append, List.cons.injEq] at h
      exact absurd (h.1 ▸ List.mem_cons_self _ _) h₁
    | cons b t₂ =>
      simp only [List.cons_append, List.cons.injEq] at h
      have := ih t₂ r₁ r₂ (fun hm => h₁ (List.mem_cons_of_mem _ hm))
        (fun hm => h₂ (List.mem_cons_of_mem _ hm)) h.2
      exact ⟨by rw [h.1, this.1], this.2⟩

/-- The characters of a Combined State. -/
theorem combinedIP_data (v4 v6 : String) :
    (combinedIP v4 v6).data = v4.data ++ '|' :: v6.data := by
  simp [combinedIP]

/-- The Combined State determines both addresses as soon as the v4 parts are
free of the separator. -/
theorem combinedIP_inj_of_left (v4 v6 v4' v6' : String)
    (h4 : '|' ∉ v4.data) (h4' : '|' ∉ v4'.data)
    (h : combinedIP v4 v6 = combinedIP v4' v6') : v4 = v4' ∧ v6 = v6' := by
  have hd := congrArg String.data h
  rw [combinedIP_data, combinedIP_data] at hd
  have := append_sep_inj '|' _ _ _ _ h4 h4' hd
  exact ⟨String.ext this.1, String.ext this.2⟩

/-- Trimming leaves the Combined State of two strings with no outer space as
it is. -/
theorem TrimSpace_combinedIP (v4 v6 : String) (h4 : NoOuterSpace v4) (h6 : NoOuterSpace v6) :
    TrimSpace (combinedIP v4 v6) = combinedIP v4 v6 := by
  rw [noOuterSpace_iff] at h4 h6
  apply String.ext
  show trimSpaceList (combinedIP v4 v6).data = (combinedIP v4 v6).data
  rw [combinedIP_data]
  apply trimSpaceList_of_noOuterSpace
  · intro c hc
    cases hv : v4.data with
    | nil =>
      rw [hv] at hc
      simp at hc
      rw [← hc]
      decide
    | cons a t =>
      rw [hv] at hc
      simp at hc
      exact h4.1 c (by rw [hv, ← hc]; rfl)
  · intro c hc
    rw [List.getLast?_append] at hc
    cases hv : (v6.data).getLast? with
    | none =>
      have hnil : v6.data = [] := by simpa using hv
      rw [hnil] at hc
      simp at hc
      rw [← hc]
      decide
    | some a =>
      have : ('|' :: v6.data).getLast? = some a := by
        rw [List.getLast?_cons, hv]
        rfl
      rw [this] at hc
      simp at hc
      exact h6.2 c (by rw [hv, hc])

/-! ## Lemmas on the cycle -/

section Cycle

variable (url : String) (w : World)

@[simp] theorem getCurrentIP_files : (getCurrentIP url w).2.files = w.files :=
  (loop_frame url backoffs 0 none w).1

@[simp] theorem getCurrentIP_writeErr : (getCurrentIP url w).2.writeErr = w.writeErr :=
  (loop_frame url backoffs 0 none w).2.1

@[simp] theorem getCurrentIP_net : (getCurrentIP url w).2.net = w.net :=
  (loop_frame url backoffs 0 none w).2.2.1

@[simp] theorem getCurrentIP_fileOps :
    fileOps (getCurrentIP url w).2.trace = fileOps w.trace :=
  (loop_frame url backoffs 0 none w).2.2.2

/-- Every call of `getCurrentIP` starts at least one attempt. -/
theorem getCurrentIP_attempts : w.attempts + 1 ≤ (getCurrentIP url w).2.attempts := by
  have := loop_attempts url backoffs 0 none w
  simpa [backoffs] using this

/-- A call of `getCurrentIP` that returns the empty string returns an error. -/
theorem getCurrentIP_empty_error (h : (getCurrentIP url w).1.1 = "") :
    (getCurrentIP url w).1.2 ≠ none := by
  intro he
  exact (loop_success_last url backoffs 0 none w he).2.1 h

@[simp] theorem logIfErr_files (pre : String) (e : Option GoError) :
    (logIfErr pre e w).files = w.files := by
  cases e <;> rfl

@[simp] theorem logIfErr_writeErr (pre : String) (e : Option GoError) :
    (logIfErr pre e w).writeErr = w.writeErr := by
  cases e <;> rfl

@[simp] theorem logIfErr_net (pre : String) (e : Option GoError) :
    (logIfErr pre e w).net = w.net := by
  cases e <;> rfl

@[simp] theorem logIfErr_attempts (pre : String) (e : Option GoError) :
    (logIfErr pre e w).attempts = w.attempts := by
  cases e <;> rfl

@[simp] theorem logIfErr_fileOps (pre : String) (e : Option GoError) :
    fileOps (logIfErr pre e w).trace = fileOps w.trace := by
  cases e <;> simp [logIfErr, fileOps]

@[simp] theorem readLastIP_fst (f : String) :
    (readLastIP f w).1 = priorMarker (w.files f) := by
  unfold readLastIP priorMarker
  simp only [emit_files]
  cases w.files f <;> rfl

@[simp] theorem readLastIP_snd (f : String) : (readLastIP f w).2 = w.emit (.readFile f) := by
  unfold readLastIP
  simp only [emit_files]
  cases w.files f <;> rfl

@[simp] theorem writeLastIP_trace (f ip : String) :
    (writeLastIP f ip w).trace = w.trace ++ [.writeFile f ip] := by
  unfold writeLastIP
  simp only [emit_writeErr]
  cases w.writeErr f <;> rfl

/-- A write that succeeds leaves exactly the written string in the file. -/
theorem writeLastIP_files_ok (f ip : String) (h : w.writeErr f = none) :
    (writeLastIP f ip w).files f = some ip := by
  unfold writeLastIP
  simp [h]

/-- A write touches no other file. -/
theorem writeLastIP_files_other (f ip p : String) (h : p ≠ f) :
    (writeLastIP f ip w).files p = w.files p := by
  unfold writeLastIP
  simp only [emit_writeErr]
  cases w.writeErr f <;> simp [h]

end Cycle

/-! ## The resolver: claims on `getCurrentIP` -/

/-- C1, as stated, fails: in a world where every attempt fails, `getCurrentIP`
makes three network calls, not four. -/
theorem getCurrentIP_four_calls_counterexample :
    (∀ i, (worldDown.net "https://api.ipify.org" (worldDown.attempts + i)).fails = true) ∧
    httpCalls (getCurrentIP "https://api.ipify.org" worldDown).2.trace = 3 ∧
    httpCalls (getCurrentIP "https://api.ipify.org" worldDown).2.trace ≠
      httpCalls worldDown.trace + 4 := by
  refine ⟨fun i => rfl, ?_, ?_⟩ <;> decide

/-- C1, amended: when every attempt of the loop fails (network error, read
error or empty trimmed body), `getCurrentIP` makes exactly 3 network calls, one
per entry of `backoffs`, before it gives up with an error. -/
theorem getCurrentIP_calls_on_exhaustion (url : String) (w : World)
    (h : ∀ i, i < 3 → (w.net url (w.attempts + i)).fails = true) :
    httpCalls (getCurrentIP url w).2.trace = httpCalls w.trace + 3 ∧
    (getCurrentIP url w).2.attempts = w.attempts + 3 ∧
    (getCurrentIP url w).1.2 ≠ none := by
  rw [getCurrentIP_all_fail url w h]
  simp [httpCalls]

/-- Witness of `getCurrentIP_calls_on_exhaustion` in a world that is down. -/
theorem getCurrentIP_calls_on_exhaustion_witness :
    (∀ i, i < 3 → (worldDown.net "https://api.ipify.org" (worldDown.attempts + i)).fails = true) ∧
    httpCalls (getCurrentIP "https://api.ipify.org" worldDown).2.trace =
      httpCalls worldDown.trace + 3 :=
  ⟨fun _ _ => rfl,
    (getCurrentIP_calls_on_exhaustion "https://api.ipify.org" worldDown (fun _ _ => rfl)).1⟩

/-- C2: for k in {0, 1, 2}, when the first k attempts fail and attempt k+1
reads a body `b` whose trimmed content is not empty, `getCurrentIP` returns
`(TrimSpace b, nil)` after exactly k+1 network calls and exactly k sleeps, the
first k of the delays 2s, 4s. -/
theorem getCurrentIP_success_after_failures (url : String) (w : World) (k : Nat) (b : String)
    (hk : k ≤ 2)
    (hfail : ∀ i, i < k → (w.net url (w.attempts + i)).fails = true)
    (hb : w.net url (w.attempts + k) = .respBody b)
    (hne : TrimSpace b ≠ "") :
    (getCurrentIP url w).1 = (TrimSpace b, none) ∧
    httpCalls (getCurrentIP url w).2.trace = httpCalls w.trace + (k + 1) ∧
    sleeps (getCurrentIP url w).2.trace = sleeps w.trace ++ [2 * Second, 4 * Second].take k := by
  unfold getCurrentIP backoffs
  obtain rfl | rfl | rfl : k = 0 ∨ k = 1 ∨ k = 2 := by omega
  · rw [loop_success_step url w 0 _ _ _ b (by simpa using hb) hne]
    simp [httpCalls, sleeps]
  · have h0 := hfail 0 (by decide)
    simp only [Nat.add_zero] at h0
    rw [loop_fail_step url w 0 _ _ _ h0]
    rw [loop_success_step url _ 1 _ _ _ b (by simpa using hb) hne]
    simp [httpCalls, sleeps]
  · have h0 := hfail 0 (by decide)
    have h1 := hfail 1 (by decide)
    simp only [Nat.add_zero] at h0
    rw [loop_fail_step url w 0 _ _ _ h0]
    rw [loop_fail_step url _ 1 _ _ _ (by simpa using h1)]
    rw [loop_success_step url _ 2 _ _ _ b (by simpa [Nat.add_assoc] using hb) hne]
    simp [httpCalls, sleeps]

/-- Witness of `getCurrentIP_success_after_failures` with k = 2: a network
error, an empty body, then an address. -/
theorem getCurrentIP_success_after_failures_witness :
    (getCurrentIP "https://api.ipify.org" worldFlaky).1 = ("203.0.113.7", none) ∧
    httpCalls (getCurrentIP "https://api.ipify.org" worldFlaky).2.trace = 3 ∧
    sleeps (getCurrentIP "https://api.ipify.org" worldFlaky).2.trace =
      [2 * Second, 4 * Second] :=
  getCurrentIP_success_after_failures "https://api.ipify.org" worldFlaky 2 "203.0.113.7\n"
    (by decide)
    (fun i hi => by
      obtain rfl | rfl : i = 0 ∨ i = 1 := by omega
      · rfl
      · decide)
    rfl (by decide)

/-- C3: when the attempts all fail, `getCurrentIP` returns the empty string and
a non-nil error that wraps the cause of the last attempt made (its network
error, its read error, or "empty IP response"), and never the cause of an
earlier attempt that differs from it. -/
theorem getCurrentIP_error_wraps_last (url : String) (w : World)
    (h : ∀ i, i < 3 → (w.net url (w.attempts + i)).fails = true) :
    (getCurrentIP url w).1.1 = "" ∧
    ∃ e cause,
      (getCurrentIP url w).1.2 = some e ∧
      (w.net url ((getCurrentIP url w).2.attempts - 1)).cause = some cause ∧
      e.Unwrap = some cause ∧
      e.Error = "failed to get current IP after retries: " ++ cause.Error ∧
      ∀ j, w.attempts + j + 1 < (getCurrentIP url w).2.attempts →
        (w.net url (w.attempts + j)).cause ≠ some cause →
        e.Unwrap ≠ (w.net url (w.attempts + j)).cause := by
  rw [getCurrentIP_all_fail url w h]
  obtain ⟨c, hc⟩ := cause_of_fails _ (h 2 (by decide))
  refine ⟨rfl, .wrap ("failed to get current IP after retries: " ++ c.Error) c, c, ?_, ?_, rfl, rfl, ?_⟩
  · simp [hc, Errorf_w]
  · simpa [Nat.add_assoc] using hc
  · intro j _ hj heq
    exact hj heq.symm

/-- Witness of `getCurrentIP_error_wraps_last`: three different failures, the
error wraps the last one. -/
theorem getCurrentIP_error_wraps_last_witness :
    (∀ i, i < 3 → (worldMixed.net "https://api64.ipify.org" (worldMixed.attempts + i)).fails = true) ∧
    (getCurrentIP "https://api64.ipify.org" worldMixed).1.1 = "" ∧
    (getCurrentIP "https://api64.ipify.org" worldMixed).1 =
      ("", some (.wrap "failed to get current IP after retries: empty IP response"
        (.leaf "empty IP response"))) := by
  have hf : ∀ i, i < 3 →
      (worldMixed.net "https://api64.ipify.org" (worldMixed.attempts + i)).fails = true := by
    intro i hi
    obtain rfl | rfl | rfl : i = 0 ∨ i = 1 ∨ i = 2 := by omega
    · rfl
    · rfl
    · decide
  exact ⟨hf, (getCurrentIP_error_wraps_last "https://api64.ipify.org" worldMixed hf).1, by decide⟩

/-- C9: when the attempts all fail, `getCurrentIP` sleeps exactly once after
each failed attempt, 2s, 4s, 8s in that order, the last sleep coming after the
final attempt and before the error is returned, 14 seconds in total; and a
call that succeeds ends with the network call of the successful attempt, so
no sleep follows it. -/
theorem getCurrentIP_sleep_schedule (url : String) (w : World) :
    ((∀ i, i < 3 → (w.net url (w.attempts + i)).fails = true) →
      callsAndSleeps (getCurrentIP url w).2.trace =
        callsAndSleeps w.trace ++
          [.httpDo url, .sleep (2 * Second), .httpDo url, .sleep (4 * Second),
            .httpDo url, .sleep (8 * Second)] ∧
      (sleeps (getCurrentIP url w).2.trace).sum = (sleeps w.trace).sum + 14 * Second ∧
      (getCurrentIP url w).2.trace.getLast? = some (.sleep (8 * Second)) ∧
      (getCurrentIP url w).1.2 ≠ none) ∧
    ((getCurrentIP url w).1.2 = none →
      (getCurrentIP url w).2.trace.getLast? = some (.httpDo url)) := by
  constructor
  · intro h
    rw [getCurrentIP_all_fail url w h]
    refine ⟨by simp [callsAndSleeps], ?_, by simp, by simp⟩
    simp [sleeps, Second]
  · intro h
    exact (loop_success_last url backoffs 0 none w h).1

/-- Witness of `getCurrentIP_sleep_schedule` in a world that is down. -/
theorem getCurrentIP_sleep_schedule_witness :
    (∀ i, i < 3 → (worldDown.net "https://api.ipify.org" (worldDown.attempts + i)).fails = true) ∧
    sleeps (getCurrentIP "https://api.ipify.org" worldDown).2.trace =
      [2 * Second, 4 * Second, 8 * Second] ∧
    (sleeps (getCurrentIP "https://api.ipify.org" worldDown).2.trace).sum =
      (sleeps worldDown.trace).sum + 14 * Second ∧
    (getCurrentIP "https://api.ipify.org" worldFlaky).2.trace.getLast? =
      some (.httpDo "https://api.ipify.org") :=
  ⟨fun _ _ => rfl, by decide,
    ((getCurrentIP_sleep_schedule "https://api.ipify.org" worldDown).1 (fun _ _ => rfl)).2.1,
    (getCurrentIP_sleep_schedule "https://api.ipify.org" worldFlaky).2 (by decide)⟩

/-! ## The cycle runner: claims on `runUpdateCycle` and the marker file -/

/-- C4: when the two resolution results `v4`, `v6` are not both empty and `m`
is the prior marker (empty when the file is missing or unreadable, else its
trimmed content), `runUpdateCycle` reads the marker once and then, if
`v4 + "|" + v6` differs from `m`, issues one write of exactly that string to
the marker file (branch "IP change detected", the file holding that string when
the write succeeds), and if it equals `m`, issues no write at all (branch
"No IP change detected", all files as before). -/
theorem runUpdateCycle_marker (ipFile ipURLv4 ipURLv6 : String) (w : World) :
    let r4 := getCurrentIP ipURLv4 w
    let r6 := getCurrentIP ipURLv6 (logIfErr "Failed to get IPv4: " r4.1.2 r4.2)
    let w2 := logIfErr "Failed to get IPv6: " r6.1.2 r6.2
    let v4 := r4.1.1
    let v6 := r6.1.1
    let m := priorMarker (w.files ipFile)
    let w' := runUpdateCycle ipFile ipURLv4 ipURLv6 w
    ¬(v4 = "" ∧ v6 = "") →
      (v4 ++ "|" ++ v6 ≠ m →
        w'.trace = w2.trace ++
          [.readFile ipFile,
            .log ("IP change detected: " ++ m ++ " -> " ++ (v4 ++ "|" ++ v6)),
            .log "Would update DNS here if Cloudflare code were active",
            .writeFile ipFile (v4 ++ "|" ++ v6)] ∧
        fileOps w'.trace =
          fileOps w.trace ++ [.readFile ipFile, .writeFile ipFile (v4 ++ "|" ++ v6)] ∧
        (w.writeErr ipFile = none → w'.files ipFile = some (v4 ++ "|" ++ v6)) ∧
        (∀ p, p ≠ ipFile → w'.files p = w.files p)) ∧
      (v4 ++ "|" ++ v6 = m →
        w'.trace = w2.trace ++
          [.readFile ipFile, .log ("No IP change detected: " ++ (v4 ++ "|" ++ v6))] ∧
        fileOps w'.trace = fileOps w.trace ++ [.readFile ipFile] ∧
        w'.files = w.files) := by
  intro r4 r6 w2 v4 v6 m w' hne
  have hm : priorMarker (w2.files ipFile) = m := by simp [w2, r6, r4, m]
  have hops : fileOps w2.trace = fileOps w.trace := by simp [w2, r6, r4]
  have hw' : w' = (if v4 = "" ∧ v6 = "" then
        w2.emit (.log "No usable IPs found, skipping update cycle")
      else if combinedIP v4 v6 ≠ (readLastIP ipFile w2).1 then
        writeLastIP ipFile (combinedIP v4 v6)
          (((readLastIP ipFile w2).2.emit (.log ("IP change detected: " ++
            (readLastIP ipFile w2).1 ++ " -> " ++ combinedIP v4 v6))).emit
            (.log "Would update DNS here if Cloudflare code were active"))
      else (readLastIP ipFile w2).2.emit (.log ("No IP change detected: " ++ combinedIP v4 v6))) :=
    rfl
  rw [if_neg hne, readLastIP_fst, readLastIP_snd, hm] at hw'
  have hc : combinedIP v4 v6 = v4 ++ "|" ++ v6 := rfl
  rw [hc] at hw'
  constructor
  · intro hd
    rw [if_pos hd] at hw'
    rw [hw']
    refine ⟨by simp, ?_, ?_, ?_⟩
    · simp only [writeLastIP_trace, emit_trace, fileOps_append, hops, List.append_assoc]
      rfl
    · intro hok
      apply writeLastIP_files_ok
      simp [w2, r6, r4, hok]
    · intro p hp
      rw [writeLastIP_files_other _ _ _ _ hp]
      simp [w2, r6, r4]
  · intro hd
    rw [if_neg (not_not.mpr hd)] at hw'
    rw [hw']
    refine ⟨by simp, ?_, ?_⟩
    · simp only [emit_trace, fileOps_append, hops, List.append_assoc]
      rfl
    · simp [w2, r6, r4]

/-- Witness of `runUpdateCycle_marker` at the two cases of the claim: marker
`1.2.3.4|` and results `5.6.7.8`, empty: the file is rewritten to `5.6.7.8|`;
marker `1.2.3.4|` and results `1.2.3.4`, empty: only the read is issued. -/
theorem runUpdateCycle_marker_witness :
    ((runUpdateCycle "/tmp/last_ip" "https://api.ipify.org" "https://api64.ipify.org"
        worldChanged).files "/tmp/last_ip" = some "5.6.7.8|" ∧
      fileOps (runUpdateCycle "/tmp/last_ip" "https://api.ipify.org" "https://api64.ipify.org"
        worldChanged).trace =
        [.readFile "/tmp/last_ip", .writeFile "/tmp/last_ip" "5.6.7.8|"]) ∧
    (fileOps (runUpdateCycle "/tmp/last_ip" "https://api.ipify.org" "https://api64.ipify.org"
        worldSame).trace = [.readFile "/tmp/last_ip"] ∧
      (runUpdateCycle "/tmp/last_ip" "https://api.ipify.org" "https://api64.ipify.org"
        worldSame).files = worldSame.files) :=
  ⟨⟨((runUpdateCycle_marker "/tmp/last_ip" "https://api.ipify.org" "https://api64.ipify.org"
        worldChanged (by decide)).1 (by decide)).2.2.1 rfl,
      ((runUpdateCycle_marker "/tmp/last_ip" "https://api.ipify.org" "https://api64.ipify.org"
        worldChanged (by decide)).1 (by decide)).2.1⟩,
    ((runUpdateCycle_marker "/tmp/last_ip" "https://api.ipify.org" "https://api64.ipify.org"
        worldSame (by decide)).2 (by decide)).2⟩

/-- C5: when both resolutions yield the empty string, `runUpdateCycle` logs the
skip and returns: it issues no file read and no file write, every file keeps
its content, both resolutions returned an error, and the v6 resolution made
its attempts after the v4 resolution had returned. -/
theorem runUpdateCycle_skip (ipFile ipURLv4 ipURLv6 : String) (w : World) :
    let r4 := getCurrentIP ipURLv4 w
    let r6 := getCurrentIP ipURLv6 (logIfErr "Failed to get IPv4: " r4.1.2 r4.2)
    let w2 := logIfErr "Failed to get IPv6: " r6.1.2 r6.2
    let w' := runUpdateCycle ipFile ipURLv4 ipURLv6 w
    r4.1.1 = "" → r6.1.1 = "" →
      w'.trace = w2.trace ++ [.log "No usable IPs found, skipping update cycle"] ∧
      fileOps w'.trace = fileOps w.trace ∧
      w'.files = w.files ∧
      r4.1.2 ≠ none ∧ r6.1.2 ≠ none ∧
      r4.2.attempts + 1 ≤ r6.2.attempts ∧ w'.attempts = r6.2.attempts := by
  intro r4 r6 w2 w' h4 h6
  have hw' : w' = (if r4.1.1 = "" ∧ r6.1.1 = "" then
        w2.emit (.log "No usable IPs found, skipping update cycle")
      else if combinedIP r4.1.1 r6.1.1 ≠ (readLastIP ipFile w2).1 then
        writeLastIP ipFile (combinedIP r4.1.1 r6.1.1)
          (((readLastIP ipFile w2).2.emit (.log ("IP change detected: " ++
            (readLastIP ipFile w2).1 ++ " -> " ++ combinedIP r4.1.1 r6.1.1))).emit
            (.log "Would update DNS here if Cloudflare code were active"))
      else (readLastIP ipFile w2).2.emit
        (.log ("No IP change detected: " ++ combinedIP r4.1.1 r6.1.1))) :=
    rfl
  rw [if_pos ⟨h4, h6⟩] at hw'
  rw [hw']
  refine ⟨rfl, ?_, ?_, getCurrentIP_empty_error _ _ h4, getCurrentIP_empty_error _ _ h6, ?_, ?_⟩
  · have hops : fileOps w2.trace = fileOps w.trace := by simp [w2, r6, r4]
    rw [emit_trace, fileOps_append, hops]
    simp [fileOps]
  · simp [w2, r6, r4]
  · have := getCurrentIP_attempts ipURLv6 (logIfErr "Failed to get IPv4: " r4.1.2 r4.2)
    simpa using this
  · simp [w2]

/-- Witness of `runUpdateCycle_skip`: with no endpoint reachable the marker
file keeps `1.2.3.4|` and no file operation is issued. -/
theorem runUpdateCycle_skip_witness :
    (getCurrentIP "https://api.ipify.org" worldOffline).1.1 = "" ∧
    fileOps (runUpdateCycle "/tmp/last_ip" "https://api.ipify.org" "https://api64.ipify.org"
      worldOffline).trace = [] ∧
    (runUpdateCycle "/tmp/last_ip" "https://api.ipify.org" "https://api64.ipify.org"
      worldOffline).files = worldOffline.files :=
  ⟨by decide,
    (runUpdateCycle_skip "/tmp/last_ip" "https://api.ipify.org" "https://api64.ipify.org"
      worldOffline (by decide) (by decide)).2.1,
    (runUpdateCycle_skip "/tmp/last_ip" "https://api.ipify.org" "https://api64.ipify.org"
      worldOffline (by decide) (by decide)).2.2.1⟩

/-- C6: marker round trip. For a Combined State `v4 + "|" + v6` whose parts are
resolver results (each empty or without leading and trailing white space),
writing it with `writeLastIP` (the write succeeding) and reading the same file
with `readLastIP` returns exactly that string. -/
theorem marker_round_trip (ipFile v4 v6 : String) (w : World)
    (hw : w.writeErr ipFile = none) (h4 : NoOuterSpace v4) (h6 : NoOuterSpace v6) :
    (readLastIP ipFile (writeLastIP ipFile (combinedIP v4 v6) w)).1 = combinedIP v4 v6 := by
  rw [readLastIP_fst, writeLastIP_files_ok _ _ _ hw]
  exact TrimSpace_combinedIP v4 v6 h4 h6

/-- Witness of `marker_round_trip` with the results of two resolver calls, an
address and the empty string. -/
theorem marker_round_trip_witness :
    (readLastIP "/tmp/last_ip" (writeLastIP "/tmp/last_ip" "203.0.113.7|" worldFlaky)).1 =
      "203.0.113.7|" :=
  marker_round_trip "/tmp/last_ip"
    (getCurrentIP "https://api.ipify.org" worldFlaky).1.1
    (getCurrentIP "https://api64.ipify.org" worldDown).1.1 worldFlaky rfl
    (getCurrentIP_noOuterSpace _ _) (getCurrentIP_noOuterSpace _ _)

/-- C10: the Combined State is injective on addresses free of the separator,
and ambiguous otherwise: two distinct pairs with a `|` inside an address give
the same Combined State. -/
theorem combinedIP_injective_without_separator :
    (∀ v4 v6 v4' v6' : String,
      '|' ∉ v4.data → '|' ∉ v6.data → '|' ∉ v4'.data → '|' ∉ v6'.data →
      combinedIP v4 v6 = combinedIP v4' v6' → v4 = v4' ∧ v6 = v6') ∧
    (∃ v4 v6 v4' v6' : String,
      (v4, v6) ≠ (v4', v6') ∧ '|' ∈ v4.data ∧ combinedIP v4 v6 = combinedIP v4' v6') := by
  constructor
  · intro v4 v6 v4' v6' h4 _ h4' _ h
    exact combinedIP_inj_of_left v4 v6 v4' v6' h4 h4' h
  · exact ⟨"a|", "b", "a", "|b", by decide, by decide, by decide⟩

/-- Witness of `combinedIP_injective_without_separator`: a change of the v4
address changes the Combined State. -/
theorem combinedIP_injective_without_separator_witness :
    '|' ∉ "1.2.3.4".data ∧ '|' ∉ "5.6.7.8".data ∧
    combinedIP "1.2.3.4" "" ≠ combinedIP "5.6.7.8" "" :=
  ⟨by decide, by decide, fun h =>
    absurd (combinedIP_injective_without_separator.1 "1.2.3.4" "" "5.6.7.8" ""
      (by decide) (by decide) (by decide) (by decide) h).1 (by decide)⟩

/-! ## The check interval -/

/-- Within the 64-bit range a product is not wrapped. -/
theorem wrapInt64_of_range (x : Int) (h₁ : -(2 ^ 63) ≤ x) (h₂ : x < 2 ^ 63) :
    wrapInt64 x = x := by
  unfold wrapInt64
  omega

/-- The interval is `n` minutes, a positive duration, when the setting parses
as an integer `n` with `0 < n ≤ 153722867`, and one minute when the setting
does not parse or is not positive. -/
theorem getCheckInterval_in_range (env : String → Option String) :
    (∀ n : Int, Atoi (getEnv env "CHECK_INTERVAL_MINUTES" "1") = some n →
      0 < n → n ≤ 153722867 →
      (getCheckInterval env).1 = n * Minute ∧ 0 < (getCheckInterval env).1) ∧
    ((Atoi (getEnv env "CHECK_INTERVAL_MINUTES" "1") = none ∨
        ∃ n : Int, Atoi (getEnv env "CHECK_INTERVAL_MINUTES" "1") = some n ∧ n ≤ 0) →
      (getCheckInterval env).1 = Minute) := by
  have hs : toString defaultCheckIntervalMin = "1" := by decide
  constructor
  · intro n hn hpos hle
    have hv : (getCheckInterval env).1 = mulInt64 n Minute := by
      unfold getCheckInterval
      simp only [hs, hn]
      rw [if_neg (by omega)]
    rw [hv]
    unfold mulInt64
    have hM : Minute = 60000000000 := by decide
    have h₁ : -(2 ^ 63 : Int) ≤ n * 60000000000 := by norm_num; omega
    have h₂ : n * 60000000000 < (2 ^ 63 : Int) := by norm_num; omega
    rw [hM, wrapInt64_of_range _ h₁ h₂]
    refine ⟨rfl, ?_⟩
    show (0 : Int) < n * 60000000000
    omega
  · intro h
    have hone : mulInt64 defaultCheckIntervalMin Minute = Minute := by decide
    rcases h with h | ⟨n, hn, hle⟩
    · unfold getCheckInterval
      simp only [hs, h, hone]
    · unfold getCheckInterval
      simp only [hs, hn, hone]
      rw [if_pos hle]

/-- C7 fails on the code: `CHECK_INTERVAL_MINUTES=9007199254740992` parses as a
positive `int`, its product with `time.Minute` wraps to a zero duration with no
fallback and no warning, and `time.NewTicker` panics on it; the value
`153722868` wraps to a negative duration. -/
theorem getCheckInterval_overflow :
    Atoi "9007199254740992" = some 9007199254740992 ∧
    getCheckInterval (envInterval "9007199254740992") = (0, []) ∧
    NewTicker (getCheckInterval (envInterval "9007199254740992")).1 =
      .error "non-positive interval for NewTicker" ∧
    (getCheckInterval (envInterval "153722868")).1 = -9223371993709551616 := by
  refine ⟨by decide, by decide, by rfl, by decide⟩

/-! ## The scheduler loop -/

/-- C8 fails on the code: a tick arrives during the first cycle, `done` is
closed, the cycle returns, and the `select` is reached with both channels
ready. `case <-done` is enabled there and would end the loop, but the `select`
gives it no priority: `case <-ticker.C` is enabled as well, and taking it
starts a new call of `runUpdateCycle` after `done` was closed. -/
theorem scheduler_cycle_after_close :
    Sched.run Sched.init [.tickFires, .closeDone, .cycleReturns] =
      some { pc := .atSelect, tickPending := true, doneClosed := true } ∧
    Sched.run Sched.init [.tickFires, .closeDone, .cycleReturns, .takeDone] =
      some { pc := .exited, tickPending := true, doneClosed := true } ∧
    Sched.run Sched.init [.tickFires, .closeDone, .cycleReturns, .takeTick] =
      some { pc := .inCycle, tickPending := false, doneClosed := true } ∧
    startsCycleAfterClose [.tickFires, .closeDone, .cycleReturns, .takeTick] = true := by
  decide

end DynDns
